import Mathlib

/-!
Verification development for the pd-detect movement-disorder detection firmware.

The development shallowly embeds the detection pipeline:
- the spectral decision stage of analyze_frequency_content
  (src/signal_processing.cpp), taking the FFT magnitude spectrum as input
  (the CMSIS radix FFT itself is external numeric code; its output array
  magnitude_spectrum is the input of the embedded logic);
- the temporal confirmation stage of process_window (src/signal_processing.cpp);
- the FOG state machine process_fog_detection (src/fog_detection.cpp);
- the per-sample step detector of read_sensor_data (src/sensor.cpp).

Float values are modelled as exact rationals; decimal literals of the C source
are translated to the corresponding exact rationals.  Machine integers are
modelled as naturals with an explicit modulus where the source type can wrap
(uint8 streak counters, uint16 step counter, uint32 millisecond timestamps).
-/

namespace PDDetect

-- ---------------------------------------------------------------------------
-- Constants from include/config.h
-- ---------------------------------------------------------------------------

def WINDOW_SIZE : ℕ := 156

def FFT_SIZE : ℕ := 256

def TARGET_SAMPLE_RATE_HZ : ℚ := 52

def DETECTION_CONFIRM_WINDOWS : ℕ := 2

def CLEAR_CONFIRM_WINDOWS : ℕ := 3

def EMA_ALPHA : ℚ := 3/10

def STEP_THRESHOLD : ℚ := 1/20

def MIN_STEP_INTERVAL_MS : ℕ := 100

/-- The dominance ratio DOM_RATIO of analyze_frequency_content (1.1f). -/
def DOM_RATIO_Q : ℚ := 11/10

/-- Modulus of the uint32 type used for millisecond timestamps. -/
def U32_MOD : ℕ := 4294967296

/-- uint32 subtraction a - b with wraparound, as in the C source. -/
def u32sub (a b : ℕ) : ℕ := (a % U32_MOD + U32_MOD - b % U32_MOD) % U32_MOD

-- ---------------------------------------------------------------------------
-- Spectral analyzer: analyze_frequency_content (src/signal_processing.cpp)
-- ---------------------------------------------------------------------------

/-- Raw per-window classification label ("NONE"/"TREMOR"/"DYSK" strings in C). -/
inductive Label
  | NONE
  | TREMOR
  | DYSK
deriving DecidableEq

/-- Frequency resolution sample_rate / FFT_SIZE (exactly 13/64 Hz). -/
def freq_res : ℚ := TARGET_SAMPLE_RATE_HZ / (FFT_SIZE : ℚ)

/-- Noise-floor band lower bin: ceilf(0.5f / freq_res), raised to 1 if below. -/
def noise_k0 : ℕ := max 1 (Int.toNat (Int.ceil ((1/2 : ℚ) / freq_res)))

/-- Noise-floor band upper bin: floorf(2.0f / freq_res), capped at FFT_SIZE/2 - 1. -/
def noise_k1 : ℕ := min (FFT_SIZE / 2 - 1) (Int.toNat (Int.floor ((2 : ℚ) / freq_res)))

/-- Noise floor: mean of magnitude_spectrum over bins noise_k0..noise_k1
(the source reads magnitude_spectrum with index k - 1; here mag k denotes
that entry for bin k), with the 0.25 fallback for an empty band and the
final clamp so that the floor is never below 0.25. -/
def noise_floor (mag : ℕ → ℚ) : ℚ :=
  let cnt := (Finset.Icc noise_k0 noise_k1).card
  let noise_sum := (Finset.Icc noise_k0 noise_k1).sum mag
  let nf := if 0 < cnt then noise_sum / (cnt : ℚ) else 1/4
  if nf < 1/4 then 1/4 else nf

/-- All positive-frequency bins searched by the peak loop (k = 1 .. FFT_SIZE/2 - 1). -/
def spectrum_bins : Finset ℕ := Finset.Icc 1 (FFT_SIZE / 2 - 1)

/-- Bins reaching the tremor branch of the peak loop: not skipped by the
f < 2.0 continue, and satisfying f >= 3.0 and f <= 5.0 (f = k * freq_res). -/
def tremor_band : Finset ℕ :=
  spectrum_bins.filter fun k =>
    ¬((k : ℚ) * freq_res < 2) ∧ 3 ≤ (k : ℚ) * freq_res ∧ (k : ℚ) * freq_res ≤ 5

/-- Bins reaching the dyskinesia branch: not skipped, failing the tremor-band
test of the else-if chain, and satisfying f >= 5.0 and f <= 7.0. -/
def dysk_band : Finset ℕ :=
  spectrum_bins.filter fun k =>
    ¬((k : ℚ) * freq_res < 2) ∧ ¬(3 ≤ (k : ℚ) * freq_res ∧ (k : ℚ) * freq_res ≤ 5) ∧
      5 ≤ (k : ℚ) * freq_res ∧ (k : ℚ) * freq_res ≤ 7

/-- tremor_peak: running maximum of the band magnitudes starting from 0.0f.
The sequential if (mag > peak) update of the loop is an iterated max. -/
def tremor_peak (mag : ℕ → ℚ) : ℚ := tremor_band.fold max 0 mag

/-- dysk_peak, as tremor_peak for the dyskinesia band. -/
def dysk_peak (mag : ℕ → ℚ) : ℚ := dysk_band.fold max 0 mag

/-- tremor_threshold = noise_floor * 3.0f. -/
def tremor_threshold (mag : ℕ → ℚ) : ℚ := noise_floor mag * 3

/-- dysk_threshold = noise_floor * 4.0f. -/
def dysk_threshold (mag : ℕ → ℚ) : ℚ := noise_floor mag * 4

/-- tremor_detected = (tremor_peak > tremor_threshold) &&
(tremor_peak > dysk_peak * DOM_RATIO). -/
def tremor_detected (mag : ℕ → ℚ) : Bool :=
  decide (tremor_threshold mag < tremor_peak mag) &&
    decide (dysk_peak mag * DOM_RATIO_Q < tremor_peak mag)

/-- dysk_detected = (dysk_peak > dysk_threshold) &&
(dysk_peak > tremor_peak * DOM_RATIO). -/
def dysk_detected (mag : ℕ → ℚ) : Bool :=
  decide (dysk_threshold mag < dysk_peak mag) &&
    decide (tremor_peak mag * DOM_RATIO_Q < dysk_peak mag)

/-- Decision and intensity stage of analyze_frequency_content, from the
magnitude spectrum: the if / else-if chain on tremor_detected and
dysk_detected, followed by the two-sided cap of the raw score. -/
def analyze_frequency_content (mag : ℕ → ℚ) : Label × ℚ :=
  let score :=
    if tremor_detected mag then
      (tremor_peak mag - tremor_threshold mag) / tremor_threshold mag
    else if dysk_detected mag then
      (dysk_peak mag - dysk_threshold mag) / dysk_threshold mag
    else 0
  let capped := if score < 0 then 0 else if 3 < score then 3 else score
  (if tremor_detected mag then Label.TREMOR
   else if dysk_detected mag then Label.DYSK
   else Label.NONE,
   capped)

-- ---------------------------------------------------------------------------
-- Temporal confirmation: process_window (src/signal_processing.cpp)
-- ---------------------------------------------------------------------------

/-- struct DetectionConfirmation (include/signal_processing.h); the
last_raw_detection char array is written once at startup but never read or
updated by the logic, so it is omitted.  The streak counters are uint8_t. -/
structure DetectionConfirmation where
  tremor_consecutive : ℕ
  dysk_consecutive : ℕ
  none_consecutive : ℕ
  tremor_ema_intensity : ℚ
  dysk_ema_intensity : ℚ
deriving DecidableEq

/-- The signal-processing state mutated by process_window: the confirmation
struct and the two published uint16 intensities. -/
structure SigState where
  detection_state : DetectionConfirmation
  tremor_intensity : ℕ
  dysk_intensity : ℕ
deriving DecidableEq

/-- The (uint16_t) cast of the nonnegative in-range float product
ema * 500.0f: truncation toward zero.  On every run of the pipeline the EMA
value lies in [0, 3], so the product lies in [0, 1500] and the C cast is
exactly this floor. -/
def u16_trunc (q : ℚ) : ℕ := Int.toNat (Int.floor q)

/-- The multi-window confirmation counter/EMA update of process_window
(the strcmp chain on the raw label).  uint8 counters wrap at 256. -/
def update_counters (raw : Label × ℚ) (d : DetectionConfirmation) :
    DetectionConfirmation :=
  match raw.1 with
  | Label.TREMOR =>
      { d with
        tremor_consecutive := (d.tremor_consecutive + 1) % 256
        dysk_consecutive := 0
        none_consecutive := 0
        tremor_ema_intensity :=
          EMA_ALPHA * raw.2 + (1 - EMA_ALPHA) * d.tremor_ema_intensity }
  | Label.DYSK =>
      { d with
        dysk_consecutive := (d.dysk_consecutive + 1) % 256
        tremor_consecutive := 0
        none_consecutive := 0
        dysk_ema_intensity :=
          EMA_ALPHA * raw.2 + (1 - EMA_ALPHA) * d.dysk_ema_intensity }
  | Label.NONE =>
      { d with
        none_consecutive := (d.none_consecutive + 1) % 256
        tremor_consecutive := 0
        dysk_consecutive := 0 }

/-- The confirmed-intensity publication chain of process_window: the three
else-if branches keyed on the streak counters, else leave the published
values unchanged. -/
def confirm_stage (raw : Label × ℚ) (s : SigState) : SigState :=
  let d := update_counters raw s.detection_state
  if DETECTION_CONFIRM_WINDOWS ≤ d.tremor_consecutive then
    let t := u16_trunc (d.tremor_ema_intensity * 500)
    { detection_state := d
      tremor_intensity := if 1000 < t then 1000 else t
      dysk_intensity := 0 }
  else if DETECTION_CONFIRM_WINDOWS ≤ d.dysk_consecutive then
    let t := u16_trunc (d.dysk_ema_intensity * 500)
    { detection_state := d
      tremor_intensity := 0
      dysk_intensity := if 1000 < t then 1000 else t }
  else if CLEAR_CONFIRM_WINDOWS ≤ d.none_consecutive then
    { detection_state := { d with tremor_ema_intensity := 0, dysk_ema_intensity := 0 }
      tremor_intensity := 0
      dysk_intensity := 0 }
  else
    { detection_state := d
      tremor_intensity := s.tremor_intensity
      dysk_intensity := s.dysk_intensity }

/-- The raw-detection stage of process_window: spectral analysis only when
std_dev >= 0.005f, else the Still branch emits NONE with intensity 0. -/
def raw_stage (std_dev : ℚ) (mag : ℕ → ℚ) : Label × ℚ :=
  if 5/1000 ≤ std_dev then analyze_frequency_content mag else (Label.NONE, 0)

-- ---------------------------------------------------------------------------
-- FOG state machine: process_fog_detection (src/fog_detection.cpp)
-- ---------------------------------------------------------------------------

/-- enum FOGState (include/fog_detection.h). -/
inductive FOGState
  | NOT_WALKING
  | WALKING
  | POTENTIAL_FREEZE
  | FREEZE_CONFIRMED
deriving DecidableEq

/-- struct FOGDetector as used by fog_detection.cpp (the freeze-confirmed
timestamp lives in a function-local static there, modelled separately in
FogEnv; the header field of the same name is never used by the .cpp). -/
structure FOGDetector where
  state : FOGState
  walking_start_time : ℕ
  freeze_start_time : ℕ
  previous_cadence : ℚ
  consecutive_walking_windows : ℕ
  consecutive_freeze_windows : ℕ
deriving DecidableEq

/-- Full mutable environment of process_fog_detection: the detector struct,
the static freeze_confirmed_start of the FREEZE_CONFIRMED case, the shared
steps_in_window counter (consumed and reset each window) and the published
fog_status flag. -/
structure FogEnv where
  fog_detector : FOGDetector
  freeze_confirmed_start : ℕ
  steps_in_window : ℕ
  fog_status : ℕ
deriving DecidableEq

/-- window_duration_sec = WINDOW_SIZE / TARGET_SAMPLE_RATE_HZ (exactly 3 s). -/
def window_duration_sec : ℚ := (WINDOW_SIZE : ℚ) / TARGET_SAMPLE_RATE_HZ

/-- cadence = (steps_in_window / window_duration_sec) * 60. -/
def cadence_of (steps : ℕ) : ℚ := ((steps : ℚ) / window_duration_sec) * 60

/-- currently_walking as the source computes it: step count, cadence range
25..140, variance range 0.05..0.30.  The tremor/dysk conjunct that the
surrounding comment block documents is commented out in the source. -/
def currently_walking (steps : ℕ) (variance : ℚ) : Bool :=
  decide (2 ≤ steps) &&
    decide (25 ≤ cadence_of steps) && decide (cadence_of steps ≤ 140) &&
    decide (5/100 ≤ variance) && decide (variance ≤ 30/100)

/-- The walking predicate as the specification states it (section 4.4):
steps >= 2, cadence in [40, 140], variance in [0.05, 0.30], and neither
tremor nor dyskinesia currently published.  Written from the spec wording,
to be compared with the source definition currently_walking. -/
def currently_walking_spec (steps : ℕ) (variance : ℚ)
    (tremor_int dysk_int : ℕ) : Bool :=
  decide (2 ≤ steps) &&
    decide (40 ≤ cadence_of steps) && decide (cadence_of steps ≤ 140) &&
    decide (5/100 ≤ variance) && decide (variance ≤ 30/100) &&
    decide (tremor_int = 0) && decide (dysk_int = 0)

/-- freeze_indicators: cadence < 10, variance < 0.015, and prior walking
context (walking_start_time > 0). -/
def freeze_indicators (steps : ℕ) (variance : ℚ) (walking_start : ℕ) : Bool :=
  decide (cadence_of steps < 10) && decide (variance < 15/1000) &&
    decide (0 < walking_start)

/-- The safety check run before the transition table: a freeze state with a
zero walking-start timestamp forces a reset to NOT_WALKING with both streak
counters cleared. -/
def safety_check (d : FOGDetector) : FOGDetector :=
  if (d.state = FOGState.POTENTIAL_FREEZE ∨ d.state = FOGState.FREEZE_CONFIRMED) ∧
      d.walking_start_time = 0 then
    { d with
      state := FOGState.NOT_WALKING
      consecutive_walking_windows := 0
      consecutive_freeze_windows := 0 }
  else d

/-- The switch on fog_detector.state: returns the updated detector and the
updated static freeze_confirmed_start. -/
def fog_transition (cw fi : Bool) (t : ℕ) (d : FOGDetector) (fcs : ℕ) :
    FOGDetector × ℕ :=
  match d.state with
  | FOGState.NOT_WALKING =>
      if cw then
        let d1 := { d with
          consecutive_walking_windows := (d.consecutive_walking_windows + 1) % 256 }
        if 1 ≤ d1.consecutive_walking_windows then
          ({ d1 with
              state := FOGState.WALKING
              walking_start_time := t
              consecutive_freeze_windows := 0 }, fcs)
        else (d1, fcs)
      else ({ d with consecutive_walking_windows := 0 }, fcs)
  | FOGState.WALKING =>
      let walking_duration := u32sub t d.walking_start_time
      if cw then (d, fcs)
      else if fi then
        if 2000 ≤ walking_duration then
          ({ d with
              state := FOGState.POTENTIAL_FREEZE
              freeze_start_time := t
              consecutive_freeze_windows := 1 }, fcs)
        else ({ d with
              state := FOGState.NOT_WALKING
              consecutive_walking_windows := 0 }, fcs)
      else ({ d with
            state := FOGState.NOT_WALKING
            consecutive_walking_windows := 0 }, fcs)
  | FOGState.POTENTIAL_FREEZE =>
      let freeze_duration := u32sub t d.freeze_start_time
      if cw then
        ({ d with state := FOGState.WALKING, consecutive_freeze_windows := 0 }, fcs)
      else if fi then
        let d1 := { d with
          consecutive_freeze_windows := (d.consecutive_freeze_windows + 1) % 256 }
        if 1500 ≤ freeze_duration then
          ({ d1 with state := FOGState.FREEZE_CONFIRMED }, fcs)
        else (d1, fcs)
      else
        ({ d with
            state := FOGState.NOT_WALKING
            consecutive_walking_windows := 0
            consecutive_freeze_windows := 0
            walking_start_time := 0 }, fcs)
  | FOGState.FREEZE_CONFIRMED =>
      let fcs1 := if fcs = 0 then t else fcs
      let confirmed_duration := u32sub t fcs1
      if cw then
        ({ d with state := FOGState.WALKING, consecutive_freeze_windows := 0 }, 0)
      else if 15000 ≤ confirmed_duration then
        ({ d with
            state := FOGState.NOT_WALKING
            consecutive_freeze_windows := 0
            consecutive_walking_windows := 0
            walking_start_time := 0 }, 0)
      else (d, fcs1)

/-- process_fog_detection: derived signals, safety check, transition table,
then the post-processing (previous_cadence store, steps_in_window reset,
fog_status recomputation). -/
def process_fog_detection (variance : ℚ) (current_time : ℕ) (e : FogEnv) :
    FogEnv :=
  let cadence := cadence_of e.steps_in_window
  let cw := currently_walking e.steps_in_window variance
  let fi := freeze_indicators e.steps_in_window variance
    e.fog_detector.walking_start_time
  let d1 := safety_check e.fog_detector
  let r := fog_transition cw fi current_time d1 e.freeze_confirmed_start
  let d3 := { r.1 with previous_cadence := cadence }
  { fog_detector := d3
    freeze_confirmed_start := r.2
    steps_in_window := 0
    fog_status := if d3.state = FOGState.FREEZE_CONFIRMED then 1 else 0 }

-- ---------------------------------------------------------------------------
-- Whole-window step and runs of the pipeline
-- ---------------------------------------------------------------------------

/-- Combined mutable state of one window step. -/
structure SystemState where
  sig : SigState
  fog : FogEnv

/-- Per-window input of process_window: the statistics of the accelerometer
window (std_dev and variance, linked by variance = std_dev^2 in the source,
both carried explicitly here since the square root is computed in float),
the FFT magnitude spectrum of the window, the current timestamp, and the
steps accumulated by read_sensor_data since the previous window. -/
structure WindowInput where
  std_dev : ℚ
  variance : ℚ
  mag : ℕ → ℚ
  current_time : ℕ
  steps : ℕ

/-- process_window: raw detection stage, temporal confirmation, then the FOG
step on this window's step count, variance and timestamp. -/
def process_window (inp : WindowInput) (s : SystemState) : SystemState :=
  let raw := raw_stage inp.std_dev inp.mag
  { sig := confirm_stage raw s.sig
    fog := process_fog_detection inp.variance inp.current_time
      { s.fog with steps_in_window := inp.steps } }

/-- Initial detection_state = ("NONE", 0, 0, 0, 0.0f, 0.0f) with
tremor_intensity = dysk_intensity = 0. -/
def sig_init : SigState :=
  { detection_state :=
      { tremor_consecutive := 0
        dysk_consecutive := 0
        none_consecutive := 0
        tremor_ema_intensity := 0
        dysk_ema_intensity := 0 }
    tremor_intensity := 0
    dysk_intensity := 0 }

/-- Initial FOG environment: fog_detector = (FOG_NOT_WALKING, 0, 0, 0.0f, 0, 0),
static freeze_confirmed_start = 0, steps_in_window = 0, fog_status = 0. -/
def fog_init : FogEnv :=
  { fog_detector :=
      { state := FOGState.NOT_WALKING
        walking_start_time := 0
        freeze_start_time := 0
        previous_cadence := 0
        consecutive_walking_windows := 0
        consecutive_freeze_windows := 0 }
    freeze_confirmed_start := 0
    steps_in_window := 0
    fog_status := 0 }

/-- Initial system state at startup. -/
def init_state : SystemState := { sig := sig_init, fog := fog_init }

/-- A run of the pipeline: fold process_window over a window-input sequence
starting from the initial state. -/
def run (inputs : List WindowInput) : SystemState :=
  inputs.foldl (fun s i => process_window i s) init_state

-- ---------------------------------------------------------------------------
-- Step detection: read_sensor_data (src/sensor.cpp, lines 261-288)
-- ---------------------------------------------------------------------------

/-- Step-detection state shared between read_sensor_data and the FOG module. -/
structure StepState where
  accel_baseline_ema : ℚ
  above_step_threshold : Bool
  last_step_time_ms : ℕ
  steps_in_window : ℕ
deriving DecidableEq

/-- The per-sample step-detection tail of read_sensor_data: EMA baseline
update (BASELINE_EMA_ALPHA = 0.001f), absolute vertical deviation, rising
edge count with minimum inter-step interval, hysteresis disarm below half
the threshold.  steps_in_window is uint16. -/
def step_detect (accel_z : ℚ) (now : ℕ) (s : StepState) : StepState :=
  let ema := (1/1000) * accel_z + (1 - 1/1000) * s.accel_baseline_ema
  let vertical_deviation := |accel_z - ema|
  if STEP_THRESHOLD < vertical_deviation ∧ s.above_step_threshold = false then
    if MIN_STEP_INTERVAL_MS < u32sub now s.last_step_time_ms then
      { accel_baseline_ema := ema
        above_step_threshold := true
        last_step_time_ms := now
        steps_in_window := (s.steps_in_window + 1) % 65536 }
    else
      { s with accel_baseline_ema := ema, above_step_threshold := true }
  else if vertical_deviation < STEP_THRESHOLD * (1/2) then
    { s with accel_baseline_ema := ema, above_step_threshold := false }
  else
    { s with accel_baseline_ema := ema }

-- ---------------------------------------------------------------------------
-- Concrete test vectors used by witness and counterexample theorems
-- ---------------------------------------------------------------------------

/-- A magnitude spectrum with a single 3.05 Hz line (bin 15) of height
889/850: the noise band is empty so the floor clamps to 0.25, and the raw
tremor intensity works out to 503/1275. -/
def cex_mag : ℕ → ℚ := fun k => if k = 15 then 889/850 else 0

/-- A moving window carrying cex_mag. -/
def cex_input : WindowInput :=
  { std_dev := 1, variance := 0, mag := cex_mag, current_time := 0, steps := 0 }

/-- A stationary window (std_dev below 0.005). -/
def still_input : WindowInput :=
  { std_dev := 0, variance := 0, mag := fun _ => 0, current_time := 0, steps := 0 }

/-- Confirmation state two NONE windows into a clear streak, with a published
tremor intensity. -/
def sig_pre3 : SigState :=
  { detection_state :=
      { tremor_consecutive := 0
        dysk_consecutive := 0
        none_consecutive := 2
        tremor_ema_intensity := 1
        dysk_ema_intensity := 0 }
    tremor_intensity := 700
    dysk_intensity := 0 }

/-- Confirmation state at the start of a clear streak. -/
def sig_pre1 : SigState :=
  { detection_state :=
      { tremor_consecutive := 0
        dysk_consecutive := 0
        none_consecutive := 0
        tremor_ema_intensity := 1
        dysk_ema_intensity := 0 }
    tremor_intensity := 700
    dysk_intensity := 0 }

/-- State after one raw TREMOR window from startup. -/
def sig_t1 : SigState := confirm_stage (Label.TREMOR, 1) sig_init

/-- State after one raw DYSK window from startup. -/
def sig_d1 : SigState := confirm_stage (Label.DYSK, 1) sig_init

/-- An invalid detector state: POTENTIAL_FREEZE with a zero walking-start. -/
def d_bad : FOGDetector :=
  { state := FOGState.POTENTIAL_FREEZE
    walking_start_time := 0
    freeze_start_time := 7
    previous_cadence := 0
    consecutive_walking_windows := 4
    consecutive_freeze_windows := 9 }

/-- A WALKING environment about to show freeze indicators. -/
def e_w : FogEnv :=
  { fog_detector :=
      { state := FOGState.WALKING
        walking_start_time := 1
        freeze_start_time := 0
        previous_cadence := 0
        consecutive_walking_windows := 1
        consecutive_freeze_windows := 0 }
    freeze_confirmed_start := 0
    steps_in_window := 0
    fog_status := 0 }

/-- A confirmed-freeze environment with a nonzero freeze_start_time, about to
hit the 15 s timeout. -/
def e_fc : FogEnv :=
  { fog_detector :=
      { state := FOGState.FREEZE_CONFIRMED
        walking_start_time := 1000
        freeze_start_time := 5000
        previous_cadence := 0
        consecutive_walking_windows := 0
        consecutive_freeze_windows := 1 }
    freeze_confirmed_start := 3000
    steps_in_window := 0
    fog_status := 1 }

/-- Another confirmed-freeze environment, used by the timeout witness. -/
def e_fc2 : FogEnv :=
  { fog_detector :=
      { state := FOGState.FREEZE_CONFIRMED
        walking_start_time := 42
        freeze_start_time := 777
        previous_cadence := 3
        consecutive_walking_windows := 0
        consecutive_freeze_windows := 2 }
    freeze_confirmed_start := 1000
    steps_in_window := 0
    fog_status := 1 }

/-- Fresh step-detection state: baseline 1 g, disarmed, no steps counted. -/
def s0_step : StepState :=
  { accel_baseline_ema := 1
    above_step_threshold := false
    last_step_time_ms := 0
    steps_in_window := 0 }

/-- Armed step-detection state, about to fall back below the hysteresis band. -/
def s_armed : StepState :=
  { accel_baseline_ema := 1
    above_step_threshold := true
    last_step_time_ms := 0
    steps_in_window := 3 }

-- ---------------------------------------------------------------------------
-- Helper lemmas
-- ---------------------------------------------------------------------------

lemma tremor_peak_nonneg (mag : ℕ → ℚ) : 0 ≤ tremor_peak mag :=
  (Finset.le_fold_max (0 : ℚ)).mpr (Or.inl le_rfl)

lemma dysk_peak_nonneg (mag : ℕ → ℚ) : 0 ≤ dysk_peak mag :=
  (Finset.le_fold_max (0 : ℚ)).mpr (Or.inl le_rfl)

lemma noise_floor_ge (mag : ℕ → ℚ) : (1/4 : ℚ) ≤ noise_floor mag := by
  unfold noise_floor
  dsimp only
  split_ifs <;> linarith

lemma tremor_detected_iff (mag : ℕ → ℚ) :
    tremor_detected mag = true ↔
      tremor_threshold mag < tremor_peak mag ∧
      dysk_peak mag * DOM_RATIO_Q < tremor_peak mag := by
  simp [tremor_detected, Bool.and_eq_true, decide_eq_true_eq]

lemma dysk_detected_iff (mag : ℕ → ℚ) :
    dysk_detected mag = true ↔
      dysk_threshold mag < dysk_peak mag ∧
      tremor_peak mag * DOM_RATIO_Q < dysk_peak mag := by
  simp [dysk_detected, Bool.and_eq_true, decide_eq_true_eq]

lemma bands_exclusive (mag : ℕ → ℚ) :
    ¬(tremor_detected mag = true ∧ dysk_detected mag = true) := by
  rintro ⟨ht, hd⟩
  rw [tremor_detected_iff] at ht
  rw [dysk_detected_iff] at hd
  have h0 : 0 ≤ dysk_peak mag := dysk_peak_nonneg mag
  have h1 := ht.2
  have h2 := hd.2
  unfold DOM_RATIO_Q at h1 h2
  linarith

lemma cap_eq_min_max (q : ℚ) :
    (if q < 0 then 0 else if 3 < q then 3 else q) = min 3 (max 0 q) := by
  split_ifs with h1 h2
  · rw [max_eq_left h1.le, min_eq_right]; norm_num
  · rw [max_eq_right (by linarith), min_eq_left h2.le]
  · rw [max_eq_right (by linarith), min_eq_right (by linarith)]

lemma clamp1000 (t : ℕ) : (if 1000 < t then 1000 else t) = min t 1000 := by
  split_ifs with h <;> omega

lemma raw_stage_still (sd : ℚ) (mag : ℕ → ℚ) (h : sd < 5/1000) :
    raw_stage sd mag = (Label.NONE, 0) := by
  unfold raw_stage
  rw [if_neg (by linarith)]

lemma confirm_stage_preserves (raw : Label × ℚ) (s : SigState)
    (h : s.tremor_intensity = 0 ∨ s.dysk_intensity = 0) :
    (confirm_stage raw s).tremor_intensity = 0 ∨
    (confirm_stage raw s).dysk_intensity = 0 := by
  unfold confirm_stage
  dsimp only
  split_ifs <;>
    first
      | exact Or.inr rfl
      | exact Or.inl rfl
      | exact h

lemma cadence_eq (steps : ℕ) : cadence_of steps = 20 * steps := by
  unfold cadence_of window_duration_sec WINDOW_SIZE TARGET_SAMPLE_RATE_HZ
  push_cast
  ring_nf

-- ---------------------------------------------------------------------------
-- Claim theorems
-- ---------------------------------------------------------------------------

/-- C1: every run of process_window from the initial state (both published
intensities zero) keeps the published tremor and dyskinesia intensities
mutually exclusive: after each invocation at most one of them is nonzero. -/
theorem published_intensities_mutually_exclusive (inputs : List WindowInput) :
    (run inputs).sig.tremor_intensity = 0 ∨ (run inputs).sig.dysk_intensity = 0 := by
  suffices h : ∀ (l : List WindowInput) (s : SystemState),
      s.sig.tremor_intensity = 0 ∨ s.sig.dysk_intensity = 0 →
      ((l.foldl (fun a i => process_window i a) s).sig.tremor_intensity = 0 ∨
        (l.foldl (fun a i => process_window i a) s).sig.dysk_intensity = 0) from
    h inputs init_state (Or.inl rfl)
  intro l
  induction l with
  | nil => exact fun s hs => hs
  | cons i t ih =>
      exact fun s hs => ih (process_window i s)
        (confirm_stage_preserves (raw_stage i.std_dev i.mag) s.sig hs)

/-- C10: in analyze_frequency_content the band peaks are nonnegative and the
noise floor is clamped to at least 0.25, so the two dominance conditions are
jointly unsatisfiable: tremor_detected and dysk_detected are never both true
and the tremor-first evaluation order never decides an actual tie. -/
theorem band_detection_mutually_exclusive (mag : ℕ → ℚ) :
    0 ≤ tremor_peak mag ∧ 0 ≤ dysk_peak mag ∧ (1/4 : ℚ) ≤ noise_floor mag ∧
    ¬(tremor_detected mag = true ∧ dysk_detected mag = true) :=
  ⟨tremor_peak_nonneg mag, dysk_peak_nonneg mag, noise_floor_ge mag,
    bands_exclusive mag⟩

/-- C7: analyze_frequency_content declares TREMOR iff the 3-5 Hz peak exceeds
3x the noise floor and exceeds the 5-7 Hz peak by the 1.1 dominance ratio;
DYSK symmetrically with the 4x threshold; and the returned intensity is
(peak - threshold) / threshold of the declared band clamped to [0, 3], with
NONE always yielding intensity 0. -/
theorem analyze_decision_and_intensity (mag : ℕ → ℚ) :
    ((analyze_frequency_content mag).1 = Label.TREMOR ↔
      noise_floor mag * 3 < tremor_peak mag ∧
      dysk_peak mag * (11/10) < tremor_peak mag) ∧
    ((analyze_frequency_content mag).1 = Label.DYSK ↔
      noise_floor mag * 4 < dysk_peak mag ∧
      tremor_peak mag * (11/10) < dysk_peak mag) ∧
    ((analyze_frequency_content mag).1 = Label.TREMOR →
      (analyze_frequency_content mag).2 =
        min 3 (max 0 ((tremor_peak mag - noise_floor mag * 3) /
          (noise_floor mag * 3)))) ∧
    ((analyze_frequency_content mag).1 = Label.DYSK →
      (analyze_frequency_content mag).2 =
        min 3 (max 0 ((dysk_peak mag - noise_floor mag * 4) /
          (noise_floor mag * 4)))) ∧
    ((analyze_frequency_content mag).1 = Label.NONE →
      (analyze_frequency_content mag).2 = 0) := by
  have hT : (tremor_detected mag = true) ↔
      (noise_floor mag * 3 < tremor_peak mag ∧
        dysk_peak mag * (11/10) < tremor_peak mag) := by
    rw [tremor_detected_iff]
    unfold tremor_threshold DOM_RATIO_Q
    exact Iff.rfl
  have hD : (dysk_detected mag = true) ↔
      (noise_floor mag * 4 < dysk_peak mag ∧
        tremor_peak mag * (11/10) < dysk_peak mag) := by
    rw [dysk_detected_iff]
    unfold dysk_threshold DOM_RATIO_Q
    exact Iff.rfl
  unfold analyze_frequency_content
  dsimp only
  by_cases ht : tremor_detected mag
  · rw [if_pos ht, if_pos ht]
    refine ⟨by simp [hT.mp ht], ?_, ?_, ?_, ?_⟩
    · simp only [reduceCtorEq, false_iff]
      intro hd2
      exact bands_exclusive mag ⟨ht, hD.mpr hd2⟩
    · intro _
      rw [cap_eq_min_max]
      unfold tremor_threshold
      rfl
    · intro hlab
      exact absurd hlab (by simp)
    · intro hlab
      exact absurd hlab (by simp)
  · have htf : tremor_detected mag = false := Bool.not_eq_true _ |>.mp ht
    rw [if_neg ht, if_neg ht]
    by_cases hd : dysk_detected mag
    · rw [if_pos hd, if_pos hd]
      refine ⟨?_, by simp [hD.mp hd], ?_, ?_, ?_⟩
      · simp only [reduceCtorEq, false_iff]
        intro ht2
        exact ht (hT.mpr ht2)
      · intro hlab
        exact absurd hlab (by simp)
      · intro _
        rw [cap_eq_min_max]
        unfold dysk_threshold
        rfl
      · intro hlab
        exact absurd hlab (by simp)
    · rw [if_neg hd, if_neg hd]
      refine ⟨?_, ?_, ?_, ?_, ?_⟩
      · simp only [reduceCtorEq, false_iff]
        intro ht2
        exact ht (hT.mpr ht2)
      · simp only [reduceCtorEq, false_iff]
        intro hd2
        exact hd (hD.mpr hd2)
      · intro hlab
        exact absurd hlab (by simp)
      · intro hlab
        exact absurd hlab (by simp)
      · intro _
        norm_num

set_option maxRecDepth 100000 in
/-- Witness for C7 at the all-zero spectrum, which is declared NONE. -/
theorem analyze_decision_and_intensity_witness :
    (analyze_frequency_content (fun _ => 0)).2 = 0 ∧
    (analyze_frequency_content (fun _ => 0)).1 = Label.NONE :=
  ⟨(analyze_decision_and_intensity (fun _ => 0)).2.2.2.2
      (by with_unfolding_all rfl),
    by with_unfolding_all rfl⟩

/-- C8: a window whose accelerometer-magnitude standard deviation is below
0.005 g is assigned raw label NONE with raw intensity 0 by process_window,
independently of the spectrum and of all pipeline history: the confirmation
stage is fed exactly (NONE, 0). -/
theorem stationary_window_raw_none :
    (∀ (sd : ℚ) (mag : ℕ → ℚ), sd < 5/1000 →
      raw_stage sd mag = (Label.NONE, 0)) ∧
    (∀ (inp : WindowInput) (s : SystemState), inp.std_dev < 5/1000 →
      (process_window inp s).sig = confirm_stage (Label.NONE, 0) s.sig) := by
  refine ⟨fun sd mag h => raw_stage_still sd mag h, fun inp s h => ?_⟩
  unfold process_window
  dsimp only
  rw [raw_stage_still _ _ h]

/-- Witness for C8 at a concrete stationary window. -/
theorem stationary_window_raw_none_witness :
    raw_stage 0 (fun _ => 1) = (Label.NONE, 0) ∧
    (process_window still_input init_state).sig =
      confirm_stage (Label.NONE, 0) init_state.sig :=
  ⟨stationary_window_raw_none.1 0 (fun _ => 1) (by norm_num),
    stationary_window_raw_none.2 still_input init_state
      (of_decide_eq_true (by with_unfolding_all rfl))⟩

/-- C4: on a raw NONE window, once the updated none streak reaches 3 the
confirmation stage clears both published intensities and both EMA
accumulators to 0; while the streak is still below 3 the published values
and both accumulators persist unchanged. -/
theorem none_streak_clears_on_third (s : SigState) (q : ℚ) :
    (CLEAR_CONFIRM_WINDOWS ≤
        (confirm_stage (Label.NONE, q) s).detection_state.none_consecutive →
      (confirm_stage (Label.NONE, q) s).tremor_intensity = 0 ∧
      (confirm_stage (Label.NONE, q) s).dysk_intensity = 0 ∧
      (confirm_stage (Label.NONE, q) s).detection_state.tremor_ema_intensity = 0 ∧
      (confirm_stage (Label.NONE, q) s).detection_state.dysk_ema_intensity = 0) ∧
    ((confirm_stage (Label.NONE, q) s).detection_state.none_consecutive <
        CLEAR_CONFIRM_WINDOWS →
      (confirm_stage (Label.NONE, q) s).tremor_intensity = s.tremor_intensity ∧
      (confirm_stage (Label.NONE, q) s).dysk_intensity = s.dysk_intensity ∧
      (confirm_stage (Label.NONE, q) s).detection_state.tremor_ema_intensity =
        s.detection_state.tremor_ema_intensity ∧
      (confirm_stage (Label.NONE, q) s).detection_state.dysk_ema_intensity =
        s.detection_state.dysk_ema_intensity) := by
  unfold confirm_stage
  dsimp only
  rw [if_neg (by simp [update_counters, DETECTION_CONFIRM_WINDOWS]),
    if_neg (by simp [update_counters, DETECTION_CONFIRM_WINDOWS])]
  split_ifs with h3
  · exact ⟨fun _ => ⟨rfl, rfl, rfl, rfl⟩, fun hlt => absurd h3 (not_le.mpr hlt)⟩
  · exact ⟨fun hge => absurd hge h3, fun _ => ⟨rfl, rfl, rfl, rfl⟩⟩

/-- Witness for C4: the third NONE window clears a published tremor
intensity of 700 and its accumulator; the first NONE window leaves both
untouched. -/
theorem none_streak_clears_on_third_witness :
    ((confirm_stage (Label.NONE, 0) sig_pre3).tremor_intensity = 0 ∧
      (confirm_stage (Label.NONE, 0) sig_pre3).dysk_intensity = 0 ∧
      (confirm_stage (Label.NONE, 0) sig_pre3).detection_state.tremor_ema_intensity = 0 ∧
      (confirm_stage (Label.NONE, 0) sig_pre3).detection_state.dysk_ema_intensity = 0) ∧
    ((confirm_stage (Label.NONE, 0) sig_pre1).tremor_intensity =
        sig_pre1.tremor_intensity ∧
      (confirm_stage (Label.NONE, 0) sig_pre1).dysk_intensity =
        sig_pre1.dysk_intensity ∧
      (confirm_stage (Label.NONE, 0) sig_pre1).detection_state.tremor_ema_intensity =
        sig_pre1.detection_state.tremor_ema_intensity ∧
      (confirm_stage (Label.NONE, 0) sig_pre1).detection_state.dysk_ema_intensity =
        sig_pre1.detection_state.dysk_ema_intensity) :=
  ⟨(none_streak_clears_on_third sig_pre3 0).1
      (of_decide_eq_true (by with_unfolding_all rfl)),
    (none_streak_clears_on_third sig_pre1 0).2
      (of_decide_eq_true (by with_unfolding_all rfl))⟩

/-- C2: the code computes currently_walking without the documented
no-tremor/no-dyskinesia conjunct (it is commented out in the source), so a
window with 2 steps, variance 0.10 and a published tremor intensity of 5 is
classified as walking although the claim requires it not to be; when
neither symptom is published the claim's predicate (with its cadence range
[40, 140]) agrees with the code on every input, because 2 steps in the 3 s
window already force cadence 40. -/
theorem currently_walking_symptom_check_missing :
    currently_walking 2 (1/10) = true ∧
    currently_walking_spec 2 (1/10) 5 0 = false ∧
    ∀ (steps : ℕ) (v : ℚ),
      currently_walking_spec steps v 0 0 = currently_walking steps v := by
  refine ⟨by with_unfolding_all rfl, by with_unfolding_all rfl, fun steps v => ?_⟩
  unfold currently_walking currently_walking_spec
  by_cases h : 2 ≤ steps
  · have h2 : (2 : ℚ) ≤ (steps : ℚ) := by exact_mod_cast h
    have hc : cadence_of steps = 20 * steps := cadence_eq steps
    have h40 : (40 : ℚ) ≤ cadence_of steps := by rw [hc]; linarith
    have h25 : (25 : ℚ) ≤ cadence_of steps := by linarith
    rw [decide_eq_true h, decide_eq_true h40, decide_eq_true h25]
    simp
  · rw [decide_eq_false h]
    simp

/-- C3 (amended): on a raw TREMOR window the confirmation stage publishes
nothing while the updated tremor streak is still below 2 (previous outputs
persist), and once the updated streak reaches 2 it publishes the truncation
of (smoothed tremor EMA x 500) clamped to 1000 and forces the dyskinesia
intensity to 0; symmetrically for DYSK at streak 2. -/
theorem publication_at_streak_two (s : SigState) (q : ℚ) :
    (s.detection_state.tremor_consecutive = 0 →
      (confirm_stage (Label.TREMOR, q) s).tremor_intensity = s.tremor_intensity ∧
      (confirm_stage (Label.TREMOR, q) s).dysk_intensity = s.dysk_intensity) ∧
    (DETECTION_CONFIRM_WINDOWS ≤
        (confirm_stage (Label.TREMOR, q) s).detection_state.tremor_consecutive →
      (confirm_stage (Label.TREMOR, q) s).tremor_intensity =
        min (u16_trunc
          ((confirm_stage
            (Label.TREMOR, q) s).detection_state.tremor_ema_intensity * 500))
          1000 ∧
      (confirm_stage (Label.TREMOR, q) s).dysk_intensity = 0) ∧
    (s.detection_state.dysk_consecutive = 0 →
      (confirm_stage (Label.DYSK, q) s).tremor_intensity = s.tremor_intensity ∧
      (confirm_stage (Label.DYSK, q) s).dysk_intensity = s.dysk_intensity) ∧
    (DETECTION_CONFIRM_WINDOWS ≤
        (confirm_stage (Label.DYSK, q) s).detection_state.dysk_consecutive →
      (confirm_stage (Label.DYSK, q) s).dysk_intensity =
        min (u16_trunc
          ((confirm_stage
            (Label.DYSK, q) s).detection_state.dysk_ema_intensity * 500))
          1000 ∧
      (confirm_stage (Label.DYSK, q) s).tremor_intensity = 0) := by
  have htc_all : (confirm_stage (Label.TREMOR, q) s).detection_state.tremor_consecutive
      = (s.detection_state.tremor_consecutive + 1) % 256 := by
    unfold confirm_stage
    dsimp only
    split_ifs <;> rfl
  have hdc_all : (confirm_stage (Label.DYSK, q) s).detection_state.dysk_consecutive
      = (s.detection_state.dysk_consecutive + 1) % 256 := by
    unfold confirm_stage
    dsimp only
    split_ifs <;> rfl
  refine ⟨?_, ?_, ?_, ?_⟩
  · intro h0
    unfold confirm_stage
    dsimp only
    rw [if_neg (by simp [update_counters, DETECTION_CONFIRM_WINDOWS, h0]),
      if_neg (by simp [update_counters, DETECTION_CONFIRM_WINDOWS]),
      if_neg (by simp [update_counters, CLEAR_CONFIRM_WINDOWS])]
    exact ⟨rfl, rfl⟩
  · intro hge
    rw [htc_all] at hge
    unfold confirm_stage
    dsimp only
    rw [if_pos (by simpa [update_counters, DETECTION_CONFIRM_WINDOWS] using hge)]
    exact ⟨clamp1000 _, rfl⟩
  · intro h0
    unfold confirm_stage
    dsimp only
    rw [if_neg (by simp [update_counters, DETECTION_CONFIRM_WINDOWS]),
      if_neg (by simp [update_counters, DETECTION_CONFIRM_WINDOWS, h0]),
      if_neg (by simp [update_counters, CLEAR_CONFIRM_WINDOWS])]
    exact ⟨rfl, rfl⟩
  · intro hge
    rw [hdc_all] at hge
    unfold confirm_stage
    dsimp only
    rw [if_neg (by simp [update_counters, DETECTION_CONFIRM_WINDOWS]),
      if_pos (by simpa [update_counters, DETECTION_CONFIRM_WINDOWS] using hge)]
    exact ⟨clamp1000 _, rfl⟩

set_option maxRecDepth 100000 in
/-- Witness for C3: from startup, the first TREMOR window publishes nothing
and the second publishes the truncated scaled EMA; likewise for DYSK. -/
theorem publication_at_streak_two_witness :
    ((confirm_stage (Label.TREMOR, 1) sig_init).tremor_intensity =
        sig_init.tremor_intensity ∧
      (confirm_stage (Label.TREMOR, 1) sig_init).dysk_intensity =
        sig_init.dysk_intensity) ∧
    ((confirm_stage (Label.TREMOR, 1) sig_t1).tremor_intensity =
        min (u16_trunc
          ((confirm_stage
            (Label.TREMOR, 1) sig_t1).detection_state.tremor_ema_intensity * 500))
          1000 ∧
      (confirm_stage (Label.TREMOR, 1) sig_t1).dysk_intensity = 0) ∧
    ((confirm_stage (Label.DYSK, 1) sig_init).tremor_intensity =
        sig_init.tremor_intensity ∧
      (confirm_stage (Label.DYSK, 1) sig_init).dysk_intensity =
        sig_init.dysk_intensity) ∧
    ((confirm_stage (Label.DYSK, 1) sig_d1).dysk_intensity =
        min (u16_trunc
          ((confirm_stage
            (Label.DYSK, 1) sig_d1).detection_state.dysk_ema_intensity * 500))
          1000 ∧
      (confirm_stage (Label.DYSK, 1) sig_d1).tremor_intensity = 0) :=
  ⟨(publication_at_streak_two sig_init 1).1 rfl,
    (publication_at_streak_two sig_t1 1).2.1
      (of_decide_eq_true (by with_unfolding_all rfl)),
    (publication_at_streak_two sig_init 1).2.2.1 rfl,
    (publication_at_streak_two sig_d1 1).2.2.2
      (of_decide_eq_true (by with_unfolding_all rfl))⟩

set_option maxRecDepth 1000000 in
set_option maxHeartbeats 1000000 in
/-- Counterexample for C3 as frozen: two identical tremor windows from the
initial state leave the smoothed EMA at 503/2500, i.e. a scaled value of
100.6; process_window publishes the truncation 100, not the rounding 101
the claim specifies (rounding v means floor of v + 1/2 here). -/
theorem publication_truncates_not_rounds :
    (run [cex_input, cex_input]).sig.detection_state.tremor_consecutive = 2 ∧
    (run [cex_input, cex_input]).sig.detection_state.tremor_ema_intensity * 500
      = 503/5 ∧
    (run [cex_input, cex_input]).sig.tremor_intensity = 100 ∧
    Int.toNat (Int.floor
      ((run [cex_input, cex_input]).sig.detection_state.tremor_ema_intensity * 500
        + 1/2)) = 101 := by
  refine ⟨?_, ?_, ?_, ?_⟩ <;> with_unfolding_all rfl

-- Helper lemmas for the FOG state machine claims

lemma safety_check_wst (d : FOGDetector) :
    (safety_check d).walking_start_time = d.walking_start_time := by
  unfold safety_check
  split_ifs <;> rfl

lemma safety_check_post (d : FOGDetector) :
    (safety_check d).state = FOGState.POTENTIAL_FREEZE ∨
      (safety_check d).state = FOGState.FREEZE_CONFIRMED →
    (safety_check d).walking_start_time ≠ 0 := by
  unfold safety_check
  split_ifs with hb
  · intro h
    rcases h with h | h <;> exact h.elim
  · intro h hw
    exact hb ⟨h, hw⟩

lemma freeze_indicators_wst (steps : ℕ) (v : ℚ) (w : ℕ) :
    freeze_indicators steps v w = true → w ≠ 0 := by
  unfold freeze_indicators
  intro h
  simp only [Bool.and_eq_true, decide_eq_true_eq] at h
  omega

lemma fog_transition_post (cw fi : Bool) (t : ℕ) (d : FOGDetector) (fcs : ℕ)
    (hfi : fi = true → d.walking_start_time ≠ 0)
    (hd : d.state = FOGState.POTENTIAL_FREEZE ∨ d.state = FOGState.FREEZE_CONFIRMED →
      d.walking_start_time ≠ 0) :
    (fog_transition cw fi t d fcs).1.state = FOGState.POTENTIAL_FREEZE ∨
      (fog_transition cw fi t d fcs).1.state = FOGState.FREEZE_CONFIRMED →
    (fog_transition cw fi t d fcs).1.walking_start_time ≠ 0 := by
  obtain ⟨st, wst, fst, pc, cww, cfw⟩ := d
  cases st <;> dsimp only [fog_transition] at hd ⊢ <;> split_ifs with h1 h2 h3
  all_goals intro h
  all_goals
    first
      | (rcases h with h | h <;> exact h.elim)
      | (exact hfi h2)
      | (exact hfi (by assumption))
      | (exact hd (Or.inl rfl))
      | (exact hd (Or.inr rfl))

/-- C5: the safety check forces POTENTIAL_FREEZE / FREEZE_CONFIRMED with a
zero walking-start timestamp back to NOT_WALKING with both streak counters
cleared, and consequently after any complete process_fog_detection
invocation the detector is never in a freeze state with a zero
walking-start timestamp. -/
theorem fog_freeze_state_requires_walking_context :
    (∀ d : FOGDetector,
      (d.state = FOGState.POTENTIAL_FREEZE ∨ d.state = FOGState.FREEZE_CONFIRMED) →
      d.walking_start_time = 0 →
      safety_check d =
        { d with
          state := FOGState.NOT_WALKING
          consecutive_walking_windows := 0
          consecutive_freeze_windows := 0 }) ∧
    (∀ (v : ℚ) (t : ℕ) (e : FogEnv),
      ((process_fog_detection v t e).fog_detector.state = FOGState.POTENTIAL_FREEZE ∨
        (process_fog_detection v t e).fog_detector.state = FOGState.FREEZE_CONFIRMED) →
      (process_fog_detection v t e).fog_detector.walking_start_time ≠ 0) := by
  constructor
  · intro d hst hw
    unfold safety_check
    rw [if_pos ⟨hst, hw⟩]
  · intro v t e
    unfold process_fog_detection
    dsimp only
    refine fog_transition_post _ _ t (safety_check e.fog_detector)
      e.freeze_confirmed_start ?_ (safety_check_post _)
    intro hfi
    rw [safety_check_wst]
    exact freeze_indicators_wst _ _ _ hfi

/-- Witness for C5: the safety check repairs a concrete invalid state, and a
concrete WALKING-to-POTENTIAL_FREEZE transition ends with a nonzero
walking-start timestamp. -/
theorem fog_freeze_state_requires_walking_context_witness :
    safety_check d_bad =
      { d_bad with
        state := FOGState.NOT_WALKING
        consecutive_walking_windows := 0
        consecutive_freeze_windows := 0 } ∧
    (process_fog_detection 0 2001 e_w).fog_detector.walking_start_time ≠ 0 :=
  ⟨fog_freeze_state_requires_walking_context.1 d_bad (Or.inl rfl) rfl,
    fog_freeze_state_requires_walking_context.2 0 2001 e_w
      (Or.inl (by with_unfolding_all rfl))⟩

lemma fog_transition_fc_timeout (cw fi : Bool) (t : ℕ) (d : FOGDetector)
    (fcs : ℕ) (hst : d.state = FOGState.FREEZE_CONFIRMED) (hcw : cw = false)
    (hdur : 15000 ≤ u32sub t (if fcs = 0 then t else fcs)) :
    fog_transition cw fi t d fcs =
      ({ d with
          state := FOGState.NOT_WALKING
          consecutive_freeze_windows := 0
          consecutive_walking_windows := 0
          walking_start_time := 0 }, 0) := by
  obtain ⟨st, wst, fst, pc, cww, cfw⟩ := d
  subst hcw
  cases hst
  dsimp only [fog_transition]
  rw [if_neg (by simp), if_pos hdur]

/-- C6 (amended): in a valid FREEZE_CONFIRMED state (nonzero walking-start
timestamp), when the patient is not currently walking and at least 15000 ms
have elapsed since the freeze-confirmed timestamp, process_fog_detection
resets to NOT_WALKING, clears both streak counters, the walking-start
timestamp and the freeze-confirmed timestamp, drops the FOG flag, and
leaves freeze_start_time unchanged; the timeout is an ordinary transition
of the total step function. -/
theorem fog_timeout_resets (v : ℚ) (t : ℕ) (e : FogEnv)
    (hst : e.fog_detector.state = FOGState.FREEZE_CONFIRMED)
    (hw : e.fog_detector.walking_start_time ≠ 0)
    (hcw : currently_walking e.steps_in_window v = false)
    (hdur : 15000 ≤ u32sub t
      (if e.freeze_confirmed_start = 0 then t else e.freeze_confirmed_start)) :
    (process_fog_detection v t e).fog_detector.state = FOGState.NOT_WALKING ∧
    (process_fog_detection v t e).fog_detector.walking_start_time = 0 ∧
    (process_fog_detection v t e).freeze_confirmed_start = 0 ∧
    (process_fog_detection v t e).fog_detector.consecutive_walking_windows = 0 ∧
    (process_fog_detection v t e).fog_detector.consecutive_freeze_windows = 0 ∧
    (process_fog_detection v t e).fog_detector.freeze_start_time =
      e.fog_detector.freeze_start_time ∧
    (process_fog_detection v t e).fog_status = 0 := by
  have hsafe : safety_check e.fog_detector = e.fog_detector := by
    unfold safety_check
    rw [if_neg]
    rintro ⟨_, h0⟩
    exact hw h0
  unfold process_fog_detection
  dsimp only
  rw [hsafe, fog_transition_fc_timeout _ _ t e.fog_detector
    e.freeze_confirmed_start hst hcw hdur]
  exact ⟨rfl, rfl, rfl, rfl, rfl, rfl, rfl⟩

/-- Witness for C6 at a concrete timed-out freeze episode. -/
theorem fog_timeout_resets_witness :
    (process_fog_detection 0 20000 e_fc2).fog_detector.state =
      FOGState.NOT_WALKING ∧
    (process_fog_detection 0 20000 e_fc2).fog_detector.walking_start_time = 0 ∧
    (process_fog_detection 0 20000 e_fc2).freeze_confirmed_start = 0 ∧
    (process_fog_detection 0 20000 e_fc2).fog_detector.consecutive_walking_windows
      = 0 ∧
    (process_fog_detection 0 20000 e_fc2).fog_detector.consecutive_freeze_windows
      = 0 ∧
    (process_fog_detection 0 20000 e_fc2).fog_detector.freeze_start_time =
      e_fc2.fog_detector.freeze_start_time ∧
    (process_fog_detection 0 20000 e_fc2).fog_status = 0 :=
  fog_timeout_resets 0 20000 e_fc2 rfl (by with_unfolding_all decide)
    (by with_unfolding_all rfl)
    (of_decide_eq_true (by with_unfolding_all rfl))

/-- Counterexample for C6 as frozen: at a concrete timed-out episode the
reset clears the walking-start and freeze-confirmed timestamps but leaves
freeze_start_time at its old value 5000, so not all episode timestamps are
cleared. -/
theorem fog_timeout_keeps_freeze_start_time :
    (process_fog_detection 0 20000 e_fc).fog_detector.state =
      FOGState.NOT_WALKING ∧
    (process_fog_detection 0 20000 e_fc).fog_detector.walking_start_time = 0 ∧
    (process_fog_detection 0 20000 e_fc).freeze_confirmed_start = 0 ∧
    (process_fog_detection 0 20000 e_fc).fog_detector.freeze_start_time = 5000 ∧
    (process_fog_detection 0 20000 e_fc).fog_detector.freeze_start_time ≠ 0 := by
  refine ⟨?_, ?_, ?_, ?_, ?_⟩ <;>
    exact of_decide_eq_true (by with_unfolding_all rfl)

/-- C9 (amended): in read_sensor_data the step counter increments exactly
when the absolute deviation of vertical acceleration from the updated EMA
baseline exceeds 0.05 g while the edge-armed flag is clear and strictly
more than 100 ms have elapsed since the last counted step; the armed flag
is cleared only when the deviation falls below half the threshold. -/
theorem step_edge_counting_rule (az : ℚ) (now : ℕ) (s : StepState) :
    (step_detect az now s).accel_baseline_ema =
      (1/1000) * az + (1 - 1/1000) * s.accel_baseline_ema ∧
    ((STEP_THRESHOLD <
          |az - ((1/1000) * az + (1 - 1/1000) * s.accel_baseline_ema)| ∧
        s.above_step_threshold = false ∧
        MIN_STEP_INTERVAL_MS < u32sub now s.last_step_time_ms) →
      (step_detect az now s).steps_in_window = (s.steps_in_window + 1) % 65536 ∧
      (step_detect az now s).last_step_time_ms = now) ∧
    (¬(STEP_THRESHOLD <
          |az - ((1/1000) * az + (1 - 1/1000) * s.accel_baseline_ema)| ∧
        s.above_step_threshold = false ∧
        MIN_STEP_INTERVAL_MS < u32sub now s.last_step_time_ms) →
      (step_detect az now s).steps_in_window = s.steps_in_window) ∧
    (s.above_step_threshold = true →
      (step_detect az now s).above_step_threshold = false →
      |az - ((1/1000) * az + (1 - 1/1000) * s.accel_baseline_ema)| <
        STEP_THRESHOLD * (1/2)) := by
  unfold step_detect
  dsimp only
  split_ifs with h1 h2 h3
  · refine ⟨rfl, fun _ => ⟨rfl, rfl⟩, fun hn => absurd ⟨h1.1, h1.2, h2⟩ hn, ?_⟩
    intro ha _
    rw [h1.2] at ha
    exact Bool.noConfusion ha
  · refine ⟨rfl, fun hh => absurd hh.2.2 h2, fun _ => rfl, ?_⟩
    intro ha _
    rw [h1.2] at ha
    exact Bool.noConfusion ha
  · exact ⟨rfl, fun hh => absurd ⟨hh.1, hh.2.1⟩ h1, fun _ => rfl,
      fun _ _ => h3⟩
  · refine ⟨rfl, fun hh => absurd ⟨hh.1, hh.2.1⟩ h1, fun _ => rfl, ?_⟩
    intro ha hb
    rw [ha] at hb
    exact Bool.noConfusion hb

/-- Witness for C9: a step is counted 101 ms after the previous one, a step
exactly 100 ms after is not, and the armed flag clears only inside the
hysteresis band. -/
theorem step_edge_counting_rule_witness :
    ((step_detect 2 101 s0_step).steps_in_window =
        (s0_step.steps_in_window + 1) % 65536 ∧
      (step_detect 2 101 s0_step).last_step_time_ms = 101) ∧
    (step_detect 2 100 s0_step).steps_in_window = s0_step.steps_in_window ∧
    |(1 : ℚ) - ((1/1000) * 1 + (1 - 1/1000) * s_armed.accel_baseline_ema)| <
      STEP_THRESHOLD * (1/2) :=
  ⟨(step_edge_counting_rule 2 101 s0_step).2.1
      (of_decide_eq_true (by with_unfolding_all rfl)),
    (step_edge_counting_rule 2 100 s0_step).2.2.1
      (of_decide_eq_true (by with_unfolding_all rfl)),
    (step_edge_counting_rule 1 5 s_armed).2.2.2 rfl
      (by with_unfolding_all rfl)⟩

/-- Counterexample for C9 as frozen: with the deviation above threshold, the
flag disarmed and exactly 100 ms elapsed since the last counted step (so at
least the minimum interval has passed), the counter does not increment. -/
theorem step_at_exactly_min_interval_not_counted :
    STEP_THRESHOLD <
      |(2 : ℚ) - ((1/1000) * 2 + (1 - 1/1000) * s0_step.accel_baseline_ema)| ∧
    s0_step.above_step_threshold = false ∧
    MIN_STEP_INTERVAL_MS ≤ u32sub 100 s0_step.last_step_time_ms ∧
    (step_detect 2 100 s0_step).steps_in_window = s0_step.steps_in_window ∧
    (step_detect 2 100 s0_step).steps_in_window ≠ s0_step.steps_in_window + 1 := by
  refine ⟨?_, ?_, ?_, ?_, ?_⟩ <;>
    exact of_decide_eq_true (by with_unfolding_all rfl)

end PDDetect
